import Mathlib

/-!
Verification of the EV-Insights "Smart EV Match Finder" recommendation scorer
(`src/improved_ev_advisor.py`).

The Python code operates on a pandas DataFrame.  We embed it shallowly:

* a vehicle row is a record of `Option` fields (`none` models a NaN cell);
* a DataFrame is a list of rows together with column-presence flags, because
  the code branches on `col in df.columns` (a column that is absent behaves
  differently from a column that is present but entirely NaN);
* numeric cells are rationals (the code's arithmetic is elementary float
  arithmetic: min-max normalisation, weighted sums; we use exact arithmetic);
* pandas NaN propagation is modelled by `Option`: any arithmetic on a `none`
  cell yields `none`, and comparisons with `none` are `false`
  (mirroring IEEE `nan` payloads: `0 * nan = nan`, `nan > x` is false);
* code paths that raise Python exceptions are modelled with `Except String`.
-/

namespace EVAdvisor

/-- One row of the vehicle table (fields used by the scorer, §3 of the spec).
A `none` models a NaN / missing cell. -/
structure Vehicle where
  make : Option String
  model : Option String
  modelYear : Option ℚ
  electricRange : Option ℚ
  baseMSRP : Option ℚ
  evType : Option String
  cafv : Option String
deriving Repr, DecidableEq

/-- A DataFrame: rows plus column-presence flags.  The Python code guards
most accesses with `col in df.columns`; when a flag is `false` the per-row
field values of that column are never consulted by the embedded code. -/
structure DataFrame where
  hasMake : Bool
  hasModel : Bool
  hasYear : Bool
  hasRange : Bool
  hasMSRP : Bool
  hasType : Bool
  hasCAFV : Bool
  rows : List Vehicle
deriving Repr, DecidableEq

/-! ## Budget filter (create_improved_ev_advisor, lines 125-131 and 158-164) -/

/-- The five budget choices offered by the selectbox (lines 125-131). -/
inductive BudgetChoice where
  | budgetConscious
  | midRange
  | premium
  | luxury
  | noPreference
deriving Repr, DecidableEq

/-- The `budget_ranges` dictionary (lines 125-131): each choice maps to an
inclusive `(min_price, max_price)` interval. -/
def budgetRange : BudgetChoice → ℚ × ℚ
  | .budgetConscious => (0, 40000)
  | .midRange => (40000, 60000)
  | .premium => (60000, 80000)
  | .luxury => (80000, 999999)
  | .noPreference => (0, 999999)

/-- The per-row budget predicate of lines 161-163:
`candidates['Base MSRP'].fillna(999999) >= min_price` and `<= max_price`.
A NaN MSRP is replaced by the sentinel 999999 before comparing. -/
def budgetPass (b : BudgetChoice) (v : Vehicle) : Bool :=
  let p := v.baseMSRP.getD 999999
  decide ((budgetRange b).1 ≤ p) && decide (p ≤ (budgetRange b).2)

/-- The budget filter (lines 160-164): applied only when the `Base MSRP`
column is present; otherwise the candidate frame is left untouched. -/
def budgetFilter (b : BudgetChoice) (df : DataFrame) : DataFrame :=
  if df.hasMSRP then { df with rows := df.rows.filter (budgetPass b) } else df

/-! ## Score normalisation (display_recommendations, lines 450-485) -/

/-- Cells of a column that survive `.dropna()`. -/
def knownVals (col : List (Option ℚ)) : List ℚ := col.filterMap id

/-- The `Electric Range` column of the frame. -/
def rangeCol (df : DataFrame) : List (Option ℚ) := df.rows.map (·.electricRange)

/-- The `Base MSRP` column of the frame. -/
def msrpCol (df : DataFrame) : List (Option ℚ) := df.rows.map (·.baseMSRP)

/-- The `Model Year` column of the frame. -/
def yearCol (df : DataFrame) : List (Option ℚ) := df.rows.map (·.modelYear)

/-- Min-max normalisation of one cell (the loop of lines 456-464).  `known`
is `col_series = score_df[col].dropna()`.  When the column is present,
non-empty after `dropna` and non-constant, the cell is normalised to
`(x - min) / (max - min)` — a NaN cell stays NaN; in every other case the
whole column receives the neutral 0.5. -/
def normCell (present : Bool) (known : List ℚ) (o : Option ℚ) : Option ℚ :=
  if present then
    match known.min?, known.max? with
    | some mn, some mx =>
        if mn ≠ mx then o.map (fun x => (x - mn) / (mx - mn)) else some 0.5
    | _, _ => some 0.5
  else some 0.5

/-- The raw value ratio `Electric Range / (Base MSRP + 1)` of line 473;
NaN operands propagate. -/
def valueRaw (v : Vehicle) : Option ℚ :=
  match v.electricRange, v.baseMSRP with
  | some r, some p => some (r / (p + 1))
  | _, _ => none

/-- The `value_score` cell (lines 471-479): computed only when both columns
are present; normalised when `value_raw.max() > value_raw.min()` (false when
the raw series is constant or entirely NaN), else the neutral 0.5. -/
def valueCell (df : DataFrame) (v : Vehicle) : Option ℚ :=
  if df.hasRange && df.hasMSRP then
    match (knownVals (df.rows.map valueRaw)).min?,
        (knownVals (df.rows.map valueRaw)).max? with
    | some mn, some mx =>
        if mn < mx then (valueRaw v).map (fun x => (x - mn) / (mx - mn))
        else some 0.5
    | _, _ => some 0.5
  else some 0.5

/-- The `cafv_pref` argument: `None` on the quick path, otherwise one of the
three radio choices of line 263. -/
inductive CafvPref where
  | noneGiven
  | dontCare
  | mustBe
  | preferEligible
deriving Repr, DecidableEq

/-- Contiguous-sublist test on character lists. -/
def charSub (pat : List Char) : List Char → Bool
  | [] => pat.isEmpty
  | c :: rest => pat.isPrefixOf (c :: rest) || charSub pat rest

/-- Case-insensitive substring test used by
`.astype(str).str.contains("eligible", case=False, na=False)` (line 483).
A NaN cell renders as the string `"nan"`, which never matches. -/
def textContainsEligible : Option String → Bool
  | none => false
  | some s => charSub "eligible".toList s.toLower.toList

/-- The `cafv_bonus` cell (lines 482-485): a flat 0.1 only when the user
chose "Prefer CAFV eligible", the CAFV column exists and the cell contains
"eligible"; otherwise 0. -/
def cafvBonusCell (cafv : CafvPref) (hasCAFV : Bool) (v : Vehicle) : ℚ :=
  match cafv, hasCAFV with
  | .preferEligible, true => if textContainsEligible v.cafv then 0.1 else 0
  | _, _ => 0

/-! ## Weight selection (lines 487-516) -/

/-- A weight quadruple over the four scoring dimensions. -/
structure Weights where
  price : ℚ
  range : ℚ
  value : ℚ
  newness : ℚ
deriving Repr, DecidableEq

/-- The five use cases of the selectbox (lines 114-120). -/
inductive UseCase where
  | commuting
  | roadTrips
  | familyHauling
  | weekendFun
  | generalPurpose
deriving Repr, DecidableEq

/-- The `use_case_weights` table (lines 490-496). -/
def useCaseWeights : UseCase → Weights
  | .commuting => ⟨0.45, 0.20, 0.25, 0.10⟩
  | .roadTrips => ⟨0.25, 0.50, 0.15, 0.10⟩
  | .familyHauling => ⟨0.35, 0.30, 0.25, 0.10⟩
  | .weekendFun => ⟨0.30, 0.30, 0.15, 0.25⟩
  | .generalPurpose => ⟨0.35, 0.30, 0.25, 0.10⟩

/-- The four scoring dimensions. -/
inductive Dim where
  | price
  | range
  | value
  | newness
deriving Repr, DecidableEq, Fintype

/-- The five priority labels of the selectboxes (lines 269-280). -/
inductive PriorityLabel where
  | lowestPrice
  | longestRange
  | brandReputation
  | latestTechnology
  | bestValue
deriving Repr, DecidableEq, Fintype

/-- The `weight_map` dictionary (lines 502-508): both "Brand reputation" and
"Latest technology" collapse onto the newness dimension. -/
def weightMap : PriorityLabel → Dim
  | .lowestPrice => .price
  | .longestRange => .range
  | .brandReputation => .newness
  | .latestTechnology => .newness
  | .bestValue => .value

/-- Read one dimension out of a weight quadruple. -/
def Weights.dim (w : Weights) : Dim → ℚ
  | .price => w.price
  | .range => w.range
  | .value => w.value
  | .newness => w.newness

/-- In-place `weights[d] += x` (lines 512-514). -/
def addWeight (w : Weights) (d : Dim) (x : ℚ) : Weights :=
  match d with
  | .price => { w with price := w.price + x }
  | .range => { w with range := w.range + x }
  | .value => { w with value := w.value + x }
  | .newness => { w with newness := w.newness + x }

/-- Priority-mode weights (lines 510-514): start from all zeros, then add
0.50 to rank 1's dimension, 0.30 to rank 2's and 0.20 to rank 3's,
accumulating when two ranks map to the same dimension. -/
def priorityWeights (p1 p2 p3 : PriorityLabel) : Weights :=
  addWeight (addWeight (addWeight ⟨0, 0, 0, 0⟩ (weightMap p1) 0.50)
    (weightMap p2) 0.30) (weightMap p3) 0.20

/-- The two entry points into the scorer. -/
inductive Method where
  | quick
  | detailed
deriving Repr, DecidableEq

/-- Weight selection (lines 488-516): use-case table on the quick path,
priority weights on the detailed path when priorities were given, and a
fixed default quadruple otherwise. -/
def selectWeights (m : Method) (uc : UseCase)
    (priorities : Option (PriorityLabel × PriorityLabel × PriorityLabel)) :
    Weights :=
  match m with
  | .quick => useCaseWeights uc
  | .detailed =>
    match priorities with
    | some (p1, p2, p3) => priorityWeights p1 p2 p3
    | none => ⟨0.35, 0.30, 0.25, 0.10⟩

/-! ## Per-row scoring and the composite (lines 466-528) -/

/-- NaN-propagating addition: `nan + x = nan`. -/
def optAdd : Option ℚ → Option ℚ → Option ℚ
  | some a, some b => some (a + b)
  | _, _ => none

/-- NaN-propagating scalar multiple: even `0 * nan = nan` in float
arithmetic, so a zero weight does not rescue a NaN score. -/
def optScale (c : ℚ) (o : Option ℚ) : Option ℚ := o.map (fun x => c * x)

/-- One row of `score_df` after the scoring columns have been added. -/
structure ScoredRow where
  veh : Vehicle
  rangeNorm : Option ℚ
  msrpNorm : Option ℚ
  yearNorm : Option ℚ
  range_score : Option ℚ
  price_score : Option ℚ
  newness_score : Option ℚ
  value_score : Option ℚ
  cafv_bonus : ℚ
  composite_score : Option ℚ
deriving Repr, DecidableEq

/-- Score one row (lines 456-485 and 519-525).  Each cell depends on the
row's own values and on the column aggregates of the whole frame; the
composite is the weighted sum of the four scores plus the CAFV bonus. -/
def scoreRow (df : DataFrame) (w : Weights) (cafv : CafvPref) (v : Vehicle) :
    ScoredRow :=
  let rn := normCell df.hasRange (knownVals (rangeCol df)) v.electricRange
  let pn := normCell df.hasMSRP (knownVals (msrpCol df)) v.baseMSRP
  let yn := normCell df.hasYear (knownVals (yearCol df)) v.modelYear
  let ps := pn.map (fun x => 1 - x)
  let vs := valueCell df v
  let bonus := cafvBonusCell cafv df.hasCAFV v
  { veh := v
    rangeNorm := rn, msrpNorm := pn, yearNorm := yn
    range_score := rn
    price_score := ps
    newness_score := yn
    value_score := vs
    cafv_bonus := bonus
    composite_score :=
      optAdd (optAdd (optAdd (optAdd (optScale w.price ps) (optScale w.range rn))
        (optScale w.value vs)) (optScale w.newness yn)) (some bonus) }

/-- Score every row of the frame (`score_df` after lines 456-525). -/
def scoreCandidates (df : DataFrame) (w : Weights) (cafv : CafvPref) :
    List ScoredRow :=
  df.rows.map (scoreRow df w cafv)

/-- Sort key: the composite score of a row with a non-NaN composite. -/
def compositeKey (r : ScoredRow) : ℚ := r.composite_score.getD 0

/-- Model of `score_df.sort_values('composite_score', ascending=False)`
(line 528).  pandas `nargsort` separates NaN keys first and, with the
default `na_position='last'`, appends those rows after the sorted remainder
in their original order.  The non-NaN rows are sorted descending; ties keep
their input order here, which coincides with numpy's behaviour for frames
of at most 16 rows, where the default quicksort kernel reduces to a stable
insertion sort (for larger frames numpy's introsort fixes no tie order). -/
def sortRanked (l : List ScoredRow) : List ScoredRow :=
  (l.filter (fun r => r.composite_score.isSome)).insertionSort
      (fun a b => compositeKey b ≤ compositeKey a) ++
    l.filter (fun r => r.composite_score.isNone)

/-- The ranked frame handed to the display and alternatives code. -/
def rankCandidates (df : DataFrame) (w : Weights) (cafv : CafvPref) :
    List ScoredRow :=
  sortRanked (scoreCandidates df w cafv)

/-! ## Diverse alternatives (get_diverse_alternatives, lines 663-709) -/

/-- Generic single-row selection shared by `nsmallest(1, col)` /
`nlargest(1, col)`: rows with a NaN key are dropped; among the rest the
head wins against the best of the tail when `headWins` holds of their keys;
`none` models the empty frame on which `.iloc` raises. -/
def pick1 (headWins : ℚ → ℚ → Bool) (key : ScoredRow → Option ℚ) :
    List ScoredRow → Option ScoredRow
  | [] => none
  | r :: rest =>
    match key r, pick1 headWins key rest with
    | none, acc => acc
    | some _, none => some r
    | some x, some b => if headWins x ((key b).getD 0) then some r else some b

/-- Model of `nsmallest(1, col).iloc[0]` (default `keep='first'`, line 674):
the first row attaining the minimal known key. -/
def nsmallest1First : (ScoredRow → Option ℚ) → List ScoredRow → Option ScoredRow :=
  pick1 (fun x y => x ≤ y)

/-- Model of `nsmallest(1, col, keep='last').iloc[-1]` (line 686): the last
row attaining the minimal known key. -/
def nsmallest1Last : (ScoredRow → Option ℚ) → List ScoredRow → Option ScoredRow :=
  pick1 (fun x y => x < y)

/-- Model of `nlargest(1, col).iloc[0]` (default `keep='first'`, line 698):
the first row attaining the maximal known key. -/
def nlargest1First : (ScoredRow → Option ℚ) → List ScoredRow → Option ScoredRow :=
  pick1 (fun x y => y ≤ x)

/-- Model of `~ranked_df['Make'].isin(used_makes)`: pandas `isin` matches
NaN against NaN, so `Option String` equality is the right test. -/
def notInUsed (used : List (Option String)) (r : ScoredRow) : Bool :=
  !decide (r.veh.make ∈ used)

/-- The three fixed alternative slot labels (lines 677, 689, 704). -/
inductive AltLabel where
  | mostAffordable
  | longestRange
  | bestValue
deriving Repr, DecidableEq

/-- One strategy block of `get_diverse_alternatives` (each of lines 672-681,
684-693, 696-707 instantiates this shape): filter the ranked frame to brands
outside `used`, and when the pool is non-empty and the key column exists,
select one row with `pick`.  `pick` returning `none` models the
`nsmallest`/`nlargest` frame being empty because every key in the pool is
NaN, on which `.iloc` raises IndexError. -/
def altStep (enabled : Bool) (pick : List ScoredRow → Option ScoredRow)
    (ranked : List ScoredRow) (used : List (Option String)) :
    Except String (Option ScoredRow) :=
  let pool := ranked.filter (notInUsed used)
  if !pool.isEmpty && enabled then
    match pick pool with
    | some b => Except.ok (some b)
    | none => Except.error "IndexError: single positional indexer is out-of-bounds"
  else Except.ok none

/-- Model of `get_diverse_alternatives` (lines 663-709).  Python exceptions
become `Except.error`: line 672 reads `ranked_df['Make']` unguarded, a
KeyError when the column is absent.  Each step that selects a row adds the
winning brand to `used_makes`, except step 3, which never records its brand.
Step 3's key column `value_score` always exists, but its slot is appended
only when both the range and MSRP columns exist (the `in best_value` test of
line 699 checks the row's index labels).  The final list is truncated to
three entries (line 709). -/
def get_diverse_alternatives (df : DataFrame) (ranked : List ScoredRow)
    (top : ScoredRow) : Except String (List (AltLabel × ScoredRow)) :=
  if df.hasMake = false then Except.error "KeyError: Make" else do
  let used0 : List (Option String) := [top.veh.make]
  let a1 ← altStep df.hasMSRP (nsmallest1First (fun r => r.veh.baseMSRP))
    ranked used0
  let used1 := match a1 with
    | some b => used0 ++ [b.veh.make]
    | none => used0
  let a2 ← altStep df.hasRange (nsmallest1Last (fun r => r.veh.electricRange))
    ranked used1
  let used2 := match a2 with
    | some b => used1 ++ [b.veh.make]
    | none => used1
  let a3 ← altStep true (nlargest1First (fun r => r.value_score)) ranked used2
  let alt1 := match a1 with
    | some b => [(AltLabel.mostAffordable, b)]
    | none => ([] : List (AltLabel × ScoredRow))
  let alt2 := match a2 with
    | some b => [(AltLabel.longestRange, b)]
    | none => ([] : List (AltLabel × ScoredRow))
  let alt3 := match a3 with
    | some b =>
      if df.hasRange && df.hasMSRP then [(AltLabel.bestValue, b)] else []
    | none => ([] : List (AltLabel × ScoredRow))
  return ((alt1 ++ alt2 ++ alt3).take 3)

/-! ## Display pipeline (display_recommendations, lines 438-660) -/

/-- The data the display produces: the top match, the alternative slots and
the top-10 comparison table. -/
structure RecOutput where
  top : ScoredRow
  alternatives : List (AltLabel × ScoredRow)
  table : List ScoredRow
deriving Repr, DecidableEq

/-- Model of `display_recommendations` up to the values it renders, with
Python exceptions as `Except.error`.  `Except.ok none` is the early return
on an empty frame (line 450).  The guards mirror, in source order, the
places that can raise:
line 558 evaluates `int(top_vehicle['Base MSRP'])` unconditionally inside
the f-string (the intended `if pd.notna(...) else` guard is outside the
substitution braces), a KeyError when the column is absent and a ValueError
when the top row's MSRP is NaN; line 576 runs `int(top_vehicle.get(
'Electric Range', 0))` when the range weight exceeds 0.35, a ValueError
when the column is present but the top cell is NaN (the division of line
578 cannot raise: the MSRP cells are numpy scalars, whose division by zero
yields inf or nan with a warning instead of a ZeroDivisionError); line 581
runs `int(top_vehicle.get('Model Year', 0))` when the newness weight exceeds
0.20, a ValueError when the column is present but the top cell is NaN;
line 595 calls `get_diverse_alternatives`; finally line 643 converts the
top-10 table's composite scores with `.astype(int)`, an IntCastingNaNError
when any of those composites is NaN.  All remaining renders are guarded
with `pd.notna` / `.get` defaults and cannot raise. -/
def display_recommendations (df : DataFrame) (m : Method) (uc : UseCase)
    (priorities : Option (PriorityLabel × PriorityLabel × PriorityLabel))
    (cafv : CafvPref) : Except String (Option RecOutput) :=
  if df.rows.isEmpty then Except.ok none else
  let w := selectWeights m uc priorities
  let ranked := rankCandidates df w cafv
  match ranked with
  | [] => Except.ok none
  | top :: _ =>
    if df.hasMSRP = false then Except.error "KeyError: Base MSRP"
    else if top.veh.baseMSRP.isNone then
      Except.error "ValueError: cannot convert float NaN to integer"
    else if decide ((0.35 : ℚ) < w.range) && df.hasRange &&
        top.veh.electricRange.isNone then
      Except.error "ValueError: cannot convert float NaN to integer"
    else if decide ((0.20 : ℚ) < w.newness) && df.hasYear &&
        top.veh.modelYear.isNone then
      Except.error "ValueError: cannot convert float NaN to integer"
    else
      match get_diverse_alternatives df ranked top with
      | .error e => Except.error e
      | .ok alts =>
        if (ranked.take 10).any (fun r => r.composite_score.isNone) then
          Except.error "IntCastingNaNError: cannot convert non-finite values to integer"
        else
          Except.ok (some { top := top, alternatives := alts, table := ranked.take 10 })

/-- Model of one scorer invocation together with the candidate frame it
leaves behind: line 454 copies the input (`score_df = df.copy()`) and every
added column lands on the copy, so the input frame survives unchanged. -/
def scorerRun (df : DataFrame) (m : Method) (uc : UseCase)
    (priorities : Option (PriorityLabel × PriorityLabel × PriorityLabel))
    (cafv : CafvPref) : List ScoredRow × DataFrame :=
  (rankCandidates df (selectWeights m uc priorities) cafv, df)

/-! ## Predicates used to state the claims -/

/-- Degenerate column in the sense of the loop of lines 456-464: the column
is absent, or its non-NaN cells are empty or constant (`min == max`). -/
def degenerateCol (present : Bool) (col : List (Option ℚ)) : Bool :=
  !present ||
    (match (knownVals col).min?, (knownVals col).max? with
     | some mn, some mx => decide (mn = mx)
     | _, _ => true)

/-- Degenerate value column in the sense of lines 472-479: one of the two
needed columns is absent, or `value_raw.max() > value_raw.min()` fails
(constant, single or entirely NaN raw series). -/
def degenerateValueCol (df : DataFrame) : Bool :=
  !(df.hasRange && df.hasMSRP) ||
    (match (knownVals (df.rows.map valueRaw)).min?,
        (knownVals (df.rows.map valueRaw)).max? with
     | some mn, some mx => !(decide (mn < mx))
     | _, _ => true)

/-- A list of rationals holds at least two distinct values iff its minimum
is strictly below its maximum. -/
def twoDistinct (l : List ℚ) : Bool :=
  match l.min?, l.max? with
  | some mn, some mx => decide (mn < mx)
  | _, _ => false

/-- The three min-max-normalised fields, for stating per-field claims. -/
inductive ScoreField where
  | range
  | msrp
  | year
deriving Repr, DecidableEq

/-- Column-presence flag of a field. -/
def fieldPresent (df : DataFrame) : ScoreField → Bool
  | .range => df.hasRange
  | .msrp => df.hasMSRP
  | .year => df.hasYear

/-- The column of a field. -/
def fieldCol (df : DataFrame) : ScoreField → List (Option ℚ)
  | .range => rangeCol df
  | .msrp => msrpCol df
  | .year => yearCol df

/-- A row's own cell for a field. -/
def fieldVal (v : Vehicle) : ScoreField → Option ℚ
  | .range => v.electricRange
  | .msrp => v.baseMSRP
  | .year => v.modelYear

/-- The scoring dimension a field feeds (`Base MSRP` feeds `price_score`
through `1 - norm`). -/
def fieldScore (r : ScoredRow) : ScoreField → Option ℚ
  | .range => r.range_score
  | .msrp => r.price_score
  | .year => r.newness_score

/-- Projection of a display run onto the exception it raised, if any. -/
def errorOf (e : Except String (Option RecOutput)) : Option String :=
  match e with
  | .error s => some s
  | .ok _ => none

/-- Projection of a display run onto the alternative slots, each slot
reduced to its label, brand and electric range. -/
def altSummary (e : Except String (Option RecOutput)) :
    Option (List (AltLabel × Option String × Option ℚ)) :=
  match e with
  | .ok (some out) =>
    some (out.alternatives.map (fun p => (p.1, p.2.veh.make, p.2.veh.electricRange)))
  | _ => none

/-! ## Concrete frames used by counterexamples and witnesses -/

/-- A vehicle whose MSRP cell is NaN, all other cells populated. -/
def vNoMSRP : Vehicle :=
  { make := some "Toyota", model := some "RAV4 Prime", modelYear := some 2023
    electricRange := some 42, baseMSRP := none
    evType := some "Plug-in Hybrid Electric Vehicle (PHEV)"
    cafv := some "Clean Alternative Fuel Vehicle Eligible" }

/-- Shorthand for a fully-populated BEV row. -/
def mkVeh (mk md : String) (yr rg pr : ℚ) : Vehicle :=
  { make := some mk, model := some md, modelYear := some yr
    electricRange := some rg, baseMSRP := some pr
    evType := some "Battery Electric Vehicle (BEV)"
    cafv := some "Clean Alternative Fuel Vehicle Eligible" }

def vTesla : Vehicle := mkVeh "Tesla" "Model Y" 2023 300 45000

def vNissan : Vehicle := mkVeh "Nissan" "Leaf" 2020 150 30000

def vChevy : Vehicle := mkVeh "Chevrolet" "Bolt EV" 2021 250 35000

def vKia : Vehicle := mkVeh "Kia" "Niro EV" 2022 100 40000

/-- Four brands, four ranges, four prices: the frame on which the
"Longest Range" slot is decided. -/
def dfAlt : DataFrame :=
  { hasMake := true, hasModel := true, hasYear := true, hasRange := true
    hasMSRP := true, hasType := true, hasCAFV := true
    rows := [vTesla, vNissan, vChevy, vKia] }

/-- The same rows with the `Base MSRP` column entirely absent. -/
def dfNoMSRPCol : DataFrame :=
  { hasMake := true, hasModel := true, hasYear := true, hasRange := true
    hasMSRP := false, hasType := true, hasCAFV := true
    rows := [vTesla, vNissan, vChevy, vKia] }

/-- The same rows with the `Make` column entirely absent. -/
def dfNoMakeCol : DataFrame :=
  { hasMake := false, hasModel := true, hasYear := true, hasRange := true
    hasMSRP := true, hasType := true, hasCAFV := true
    rows := [vTesla, vNissan, vChevy, vKia] }

/-- A single-row frame: every column is degenerate (constant). -/
def dfSingle : DataFrame :=
  { hasMake := true, hasModel := true, hasYear := true, hasRange := true
    hasMSRP := true, hasType := true, hasCAFV := true
    rows := [vTesla] }

/-- A two-row frame with two distinct known prices. -/
def dfTwoPrices : DataFrame :=
  { hasMake := true, hasModel := true, hasYear := true, hasRange := true
    hasMSRP := true, hasType := true, hasCAFV := true
    rows := [vNissan, vTesla] }

/-- A scored row around the given vehicle with a defined composite; used to
exercise the alternatives selector directly. -/
def plainRow (v : Vehicle) : ScoredRow :=
  { veh := v, rangeNorm := none, msrpNorm := none, yearNorm := none
    range_score := none, price_score := none, newness_score := none
    value_score := some 1, cafv_bonus := 0, composite_score := some 1 }

/-- A three-row frame with two distinct known prices and one NaN price. -/
def dfNaNPrice : DataFrame :=
  { hasMake := true, hasModel := true, hasYear := true, hasRange := true
    hasMSRP := true, hasType := true, hasCAFV := true
    rows := [vNissan, vTesla, vNoMSRP] }

end EVAdvisor

namespace EVAdvisor

/-! ## Helper lemmas -/

theorem mem_scoreCandidates {df : DataFrame} {w : Weights} {c : CafvPref}
    {r : ScoredRow} :
    r ∈ scoreCandidates df w c ↔ ∃ v ∈ df.rows, scoreRow df w c v = r := by
  simp [scoreCandidates]

theorem scoreRow_range_score (df : DataFrame) (w : Weights) (c : CafvPref)
    (v : Vehicle) :
    (scoreRow df w c v).range_score =
      normCell df.hasRange (knownVals (rangeCol df)) v.electricRange := rfl

theorem scoreRow_price_score (df : DataFrame) (w : Weights) (c : CafvPref)
    (v : Vehicle) :
    (scoreRow df w c v).price_score =
      (normCell df.hasMSRP (knownVals (msrpCol df)) v.baseMSRP).map
        (fun x => 1 - x) := rfl

theorem scoreRow_newness_score (df : DataFrame) (w : Weights) (c : CafvPref)
    (v : Vehicle) :
    (scoreRow df w c v).newness_score =
      normCell df.hasYear (knownVals (yearCol df)) v.modelYear := rfl

theorem scoreRow_value_score (df : DataFrame) (w : Weights) (c : CafvPref)
    (v : Vehicle) :
    (scoreRow df w c v).value_score = valueCell df v := rfl

theorem scoreRow_veh (df : DataFrame) (w : Weights) (c : CafvPref)
    (v : Vehicle) : (scoreRow df w c v).veh = v := rfl

theorem scoreRow_composite (df : DataFrame) (w : Weights) (c : CafvPref)
    (v : Vehicle) :
    (scoreRow df w c v).composite_score =
      optAdd (optAdd (optAdd (optAdd
        (optScale w.price ((normCell df.hasMSRP (knownVals (msrpCol df))
          v.baseMSRP).map (fun x => 1 - x)))
        (optScale w.range (normCell df.hasRange (knownVals (rangeCol df))
          v.electricRange)))
        (optScale w.value (valueCell df v)))
        (optScale w.newness (normCell df.hasYear (knownVals (yearCol df))
          v.modelYear)))
        (some (cafvBonusCell c df.hasCAFV v)) := rfl

theorem optAdd_none_left (x : Option ℚ) : optAdd none x = none := by
  cases x <;> rfl

theorem optAdd_none_right (x : Option ℚ) : optAdd x none = none := by
  cases x <;> rfl

theorem optScale_none (c : ℚ) : optScale c none = none := rfl

theorem normCell_degenerate (present : Bool) (col : List (Option ℚ))
    (o : Option ℚ) (h : degenerateCol present col = true) :
    normCell present (knownVals col) o = some 0.5 := by
  cases present with
  | false => rfl
  | true =>
    simp only [degenerateCol, Bool.not_true, Bool.false_or] at h
    rw [normCell]
    rcases hmn : (knownVals col).min? with _ | mn <;>
      rcases hmx : (knownVals col).max? with _ | mx <;>
        simp only [hmn, hmx] at h ⊢ <;> try rfl
    simp only [decide_eq_true_eq] at h
    simp [h]

theorem valueCell_degenerate (df : DataFrame) (v : Vehicle)
    (h : degenerateValueCol df = true) : valueCell df v = some 0.5 := by
  rw [degenerateValueCol] at h
  rw [valueCell]
  cases hb : (df.hasRange && df.hasMSRP) with
  | false => rfl
  | true =>
    rw [hb] at h
    simp only [Bool.not_true, Bool.false_or] at h
    rcases hmn : (knownVals (df.rows.map valueRaw)).min? with _ | mn <;>
      rcases hmx : (knownVals (df.rows.map valueRaw)).max? with _ | mx <;>
        simp only [hmn, hmx] at h ⊢ <;> try rfl
    simp only [Bool.not_eq_true', decide_eq_false_iff_not] at h
    simp [h]

theorem normCell_none_of_twoDistinct (known : List ℚ)
    (h : twoDistinct known = true) : normCell true known none = none := by
  rw [twoDistinct] at h
  rw [normCell]
  rcases hmn : known.min? with _ | mn <;>
    rcases hmx : known.max? with _ | mx <;>
      simp only [hmn, hmx] at h ⊢ <;> try cases h
  simp only [decide_eq_true_eq] at h
  simp [ne_of_lt h]

/-- C2. The claim says a vehicle with unknown MSRP is excluded by the budget
filter for every budget choice except "No preference".  False: the NaN
sentinel 999999 also lies inside the Luxury interval (80000, 999999), so an
unknown-MSRP vehicle passes the Luxury budget filter as well. -/
theorem c2_budget_unknown_counterexample :
    budgetPass BudgetChoice.luxury vNoMSRP = true ∧
    BudgetChoice.luxury ≠ BudgetChoice.noPreference ∧
    vNoMSRP.baseMSRP = none := by
  refine ⟨by decide, by decide, rfl⟩

/-- C2 (amended). When the MSRP column is present, a vehicle passes the
budget filter iff its MSRP, with NaN replaced by the sentinel 999999, lies
in the chosen inclusive interval; consequently a vehicle with unknown MSRP
passes exactly the two budget choices whose upper bound is the sentinel:
"Luxury (> $80k)" and "No preference". -/
theorem c2_budget_filter_amended (b : BudgetChoice) (v : Vehicle) :
    (budgetPass b v = true ↔
      (budgetRange b).1 ≤ v.baseMSRP.getD 999999 ∧
        v.baseMSRP.getD 999999 ≤ (budgetRange b).2) ∧
    (v.baseMSRP = none →
      (budgetPass b v = true ↔
        b = BudgetChoice.luxury ∨ b = BudgetChoice.noPreference)) := by
  constructor
  · simp [budgetPass]
  · intro hnone
    simp only [budgetPass, hnone, Option.getD_none]
    cases b <;> simp [budgetRange] <;> norm_num

/-- C1. The claim (and the code's own slot label "Longest Range" with its
caption "Maximum range: ... miles") says the second slot holds the
longest-range vehicle among unused brands.  The code instead calls
`nsmallest(1, 'Electric Range')` (line 686) and so selects the
shortest-range vehicle: on `dfAlt` the slot holds the 100-mile Kia while
the 250-mile Chevrolet — a brand used by no other slot seed — was in the
pool (it even ends up in the later value slot). -/
theorem c1_longest_range_slot_is_shortest :
    altSummary (display_recommendations dfAlt Method.quick UseCase.roadTrips
        none CafvPref.noneGiven) =
      some [(AltLabel.mostAffordable, some "Nissan", some 150),
        (AltLabel.longestRange, some "Kia", some 100),
        (AltLabel.bestValue, some "Chevrolet", some 250)] ∧
    vChevy ∈ dfAlt.rows ∧ vChevy.make = some "Chevrolet" ∧
    vChevy.electricRange = some 250 ∧ (100 : ℚ) < 250 := by
  refine ⟨by with_unfolding_all rfl, by simp [dfAlt], rfl, rfl, by norm_num⟩

/-- C3. The claim says scoring and the diverse-alternatives selection never
raise when an optional column is entirely absent.  Two code slips break it:
line 558 evaluates `int(top_vehicle['Base MSRP'])` unconditionally inside an
f-string (its guard was accidentally placed outside the braces), raising
KeyError when the MSRP column is absent; and line 672 reads
`ranked_df['Make']` without a presence check, raising KeyError when the
make column is absent. -/
theorem c3_absent_column_raises :
    errorOf (display_recommendations dfNoMSRPCol Method.quick UseCase.commuting
        none CafvPref.noneGiven) = some "KeyError: Base MSRP" ∧
    errorOf (display_recommendations dfNoMakeCol Method.quick UseCase.commuting
        none CafvPref.noneGiven) = some "KeyError: Make" := by
  refine ⟨by with_unfolding_all rfl, by with_unfolding_all rfl⟩

/-- C7. In priority mode each dimension's weight is exactly the sum of the
contributions of the ranks mapped onto it: 0.50 from rank 1, 0.30 from
rank 2, 0.20 from rank 3, accumulating additively with no renormalisation,
and both "Brand reputation" and "Latest technology" map to newness. -/
theorem c7_priority_weight_accumulation :
    (∀ (p1 p2 p3 : PriorityLabel) (d : Dim),
      (priorityWeights p1 p2 p3).dim d =
        (if weightMap p1 = d then 0.50 else 0) +
        (if weightMap p2 = d then 0.30 else 0) +
        (if weightMap p3 = d then 0.20 else 0)) ∧
    weightMap PriorityLabel.brandReputation = Dim.newness ∧
    weightMap PriorityLabel.latestTechnology = Dim.newness := by
  refine ⟨by with_unfolding_all decide, rfl, rfl⟩

/-- C9. The scorer is pure and deterministic: one invocation hands back the
candidate frame unchanged (the code works on `df.copy()`, line 454), and a
second invocation on that frame with the same preference profile produces
the identical ranking; no other state enters `scorerRun`. -/
theorem c9_scorer_pure_deterministic (df : DataFrame) (m : Method)
    (uc : UseCase)
    (priorities : Option (PriorityLabel × PriorityLabel × PriorityLabel))
    (cafv : CafvPref) :
    (scorerRun df m uc priorities cafv).2 = df ∧
    (scorerRun ((scorerRun df m uc priorities cafv).2) m uc priorities
        cafv).1 = (scorerRun df m uc priorities cafv).1 :=
  ⟨rfl, rfl⟩

theorem append_somes_before_nones (A B : List ScoredRow)
    (hA : ∀ x ∈ A, x.composite_score.isSome = true)
    (hB : ∀ x ∈ B, x.composite_score.isNone = true)
    (i j : ℕ) (hi : i < (A ++ B).length) (hj : j < (A ++ B).length)
    (hin : ((A ++ B).get ⟨i, hi⟩).composite_score = none)
    (hjs : (((A ++ B).get ⟨j, hj⟩).composite_score).isSome = true) :
    j < i := by
  rcases Nat.lt_or_ge i A.length with hiA | hiA
  · exfalso
    have hmem : (A ++ B).get ⟨i, hi⟩ ∈ A := by
      have hg : (A ++ B).get ⟨i, hi⟩ = A.get ⟨i, hiA⟩ := by
        simp [List.get_eq_getElem, List.getElem_append_left hiA]
      rw [hg]
      exact List.get_mem A i hiA
    have hsome := hA _ hmem
    rw [hin] at hsome
    simp at hsome
  · rcases Nat.lt_or_ge j A.length with hjA | hjA
    · exact lt_of_lt_of_le hjA hiA
    · exfalso
      have hjB : j - A.length < B.length := by
        have hj2 := hj
        rw [List.length_append] at hj2
        omega
      have hmem : (A ++ B).get ⟨j, hj⟩ ∈ B := by
        have hg : (A ++ B).get ⟨j, hj⟩ = B.get ⟨j - A.length, hjB⟩ := by
          simp [List.get_eq_getElem, List.getElem_append_right hjA]
        rw [hg]
        exact List.get_mem B _ _
      have hnone := hB _ hmem
      rw [Option.isNone_iff_eq_none] at hnone
      rw [hnone] at hjs
      simp at hjs

theorem sortRanked_somes_first (l : List ScoredRow) :
    ∀ (i j : ℕ) (hi : i < (sortRanked l).length)
      (hj : j < (sortRanked l).length),
      ((sortRanked l).get ⟨i, hi⟩).composite_score = none →
      (((sortRanked l).get ⟨j, hj⟩).composite_score).isSome = true →
      j < i := by
  intro i j hi hj hin hjs
  refine append_somes_before_nones _ _ ?_ ?_ i j hi hj hin hjs
  · intro x hx
    simp only [List.mem_insertionSort, List.mem_filter] at hx
    exact hx.2
  · intro x hx
    exact (List.mem_filter.mp hx).2

theorem pick1_mem {hw : ℚ → ℚ → Bool} {key : ScoredRow → Option ℚ}
    {l : List ScoredRow} {r : ScoredRow} (h : pick1 hw key l = some r) :
    r ∈ l := by
  induction l with
  | nil => simp [pick1] at h
  | cons a t ih =>
    rcases hka : key a with _ | x <;>
      rcases hkp : pick1 hw key t with _ | b <;>
        simp [pick1, hka, hkp] at h
    · exact List.mem_cons_of_mem a (ih (h ▸ hkp))
    · exact h ▸ List.mem_cons_self a t
    · by_cases hcond : hw x ((key b).getD 0) = true <;> simp [hcond] at h
      · exact h ▸ List.mem_cons_self a t
      · exact List.mem_cons_of_mem a (ih (h ▸ hkp))

theorem except_bind_ok {α β : Type} {x : Except String α}
    {f : α → Except String β} {v : β} (h : x >>= f = Except.ok v) :
    ∃ a, x = Except.ok a ∧ f a = Except.ok v := by
  cases x with
  | error e => exact absurd h (by simp [Bind.bind, Except.bind])
  | ok a => exact ⟨a, rfl, h⟩

theorem altStep_ok_some {e : Bool} {p : List ScoredRow → Option ScoredRow}
    {ranked : List ScoredRow} {used : List (Option String)} {b : ScoredRow}
    (hp : ∀ (l : List ScoredRow) (x : ScoredRow), p l = some x → x ∈ l)
    (h : altStep e p ranked used = Except.ok (some b)) :
    b ∈ ranked ∧ b.veh.make ∉ used := by
  simp only [altStep] at h
  by_cases hc : (!(ranked.filter (notInUsed used)).isEmpty && e) = true
  · rw [if_pos hc] at h
    cases hp2 : p (ranked.filter (notInUsed used)) with
    | none => rw [hp2] at h; simp at h
    | some x =>
      rw [hp2] at h
      have hx : x = b := by simpa using h
      subst hx
      have hmem := List.mem_filter.mp (hp _ _ hp2)
      refine ⟨hmem.1, ?_⟩
      simpa [notInUsed] using hmem.2
  · rw [if_neg hc] at h
    simp at h

theorem altStep_empty (e : Bool) (p : List ScoredRow → Option ScoredRow)
    (ranked : List ScoredRow) (used : List (Option String))
    (h : ranked.filter (notInUsed used) = []) :
    altStep e p ranked used = Except.ok none := by
  simp [altStep, h]

/-- C5. Degenerate-field law: whenever a normalised column (range, MSRP,
year) is constant, entirely NaN or absent, every candidate's score for that
dimension is exactly 0.5; likewise for the value score when the raw
range/(price+1) series is degenerate or a needed column is missing; and an
entirely empty MSRP column forces both the price and the value score to 0.5
for every row. -/
theorem c5_degenerate_fields_half (df : DataFrame) (w : Weights)
    (c : CafvPref) (r : ScoredRow) (hr : r ∈ scoreCandidates df w c) :
    (degenerateCol df.hasRange (rangeCol df) = true →
      r.range_score = some 0.5) ∧
    (degenerateCol df.hasMSRP (msrpCol df) = true →
      r.price_score = some 0.5) ∧
    (degenerateCol df.hasYear (yearCol df) = true →
      r.newness_score = some 0.5) ∧
    (degenerateValueCol df = true → r.value_score = some 0.5) ∧
    ((msrpCol df).all (fun o => o.isNone) = true →
      r.price_score = some 0.5 ∧ r.value_score = some 0.5) := by
  rcases mem_scoreCandidates.mp hr with ⟨v, hv, rfl⟩
  have hprice : degenerateCol df.hasMSRP (msrpCol df) = true →
      (scoreRow df w c v).price_score = some 0.5 := by
    intro h
    rw [scoreRow_price_score, normCell_degenerate _ _ _ h]
    norm_num
  have hvalue : degenerateValueCol df = true →
      (scoreRow df w c v).value_score = some 0.5 := by
    intro h
    rw [scoreRow_value_score, valueCell_degenerate _ _ h]
  refine ⟨?_, hprice, ?_, hvalue, ?_⟩
  · intro h
    rw [scoreRow_range_score, normCell_degenerate _ _ _ h]
  · intro h
    rw [scoreRow_newness_score, normCell_degenerate _ _ _ h]
  · intro hall
    have hkv : knownVals (msrpCol df) = [] := by
      rw [knownVals, List.filterMap_eq_nil_iff]
      intro o ho
      simpa using List.all_eq_true.mp hall o ho
    have hdeg : degenerateCol df.hasMSRP (msrpCol df) = true := by
      cases hM : df.hasMSRP with
      | false => rfl
      | true => simp [degenerateCol, hkv]
    have hdegv : degenerateValueCol df = true := by
      cases hRM : (df.hasRange && df.hasMSRP) with
      | false => simp [degenerateValueCol, hRM]
      | true =>
        have hke : knownVals (df.rows.map valueRaw) = [] := by
          rw [knownVals, List.filterMap_eq_nil_iff]
          intro o ho
          rcases List.mem_map.mp ho with ⟨u, hu, rfl⟩
          have hu2 : u.baseMSRP.isNone = true :=
            List.all_eq_true.mp hall u.baseMSRP
              (List.mem_map_of_mem (fun x => x.baseMSRP) hu)
          have hun : u.baseMSRP = none := Option.isNone_iff_eq_none.mp hu2
          cases u.electricRange <;> simp [valueRaw, hun]
        simp [degenerateValueCol, hRM, hke]
    exact ⟨hprice hdeg, hvalue hdegv⟩

/-- C5 witness: on a single-row frame every column is constant, so all four
degenerate conditions hold and the theorem applies. -/
theorem c5_degenerate_fields_half_witness :
    (degenerateCol dfSingle.hasRange (rangeCol dfSingle) = true →
      (scoreRow dfSingle (useCaseWeights UseCase.generalPurpose)
        CafvPref.noneGiven vTesla).range_score = some 0.5) ∧
    (degenerateCol dfSingle.hasMSRP (msrpCol dfSingle) = true →
      (scoreRow dfSingle (useCaseWeights UseCase.generalPurpose)
        CafvPref.noneGiven vTesla).price_score = some 0.5) ∧
    (degenerateCol dfSingle.hasYear (yearCol dfSingle) = true →
      (scoreRow dfSingle (useCaseWeights UseCase.generalPurpose)
        CafvPref.noneGiven vTesla).newness_score = some 0.5) ∧
    (degenerateValueCol dfSingle = true →
      (scoreRow dfSingle (useCaseWeights UseCase.generalPurpose)
        CafvPref.noneGiven vTesla).value_score = some 0.5) ∧
    ((msrpCol dfSingle).all (fun o => o.isNone) = true →
      (scoreRow dfSingle (useCaseWeights UseCase.generalPurpose)
          CafvPref.noneGiven vTesla).price_score = some 0.5 ∧
        (scoreRow dfSingle (useCaseWeights UseCase.generalPurpose)
          CafvPref.noneGiven vTesla).value_score = some 0.5) :=
  c5_degenerate_fields_half dfSingle (useCaseWeights UseCase.generalPurpose)
    CafvPref.noneGiven _
    (List.mem_map_of_mem _ (by simp [dfSingle]))

/-- C6. With at least two distinct known prices in the candidate set, the
price score is strictly decreasing in MSRP: of two candidates with known
MSRPs, the more expensive one scores strictly lower. -/
theorem c6_price_score_strictly_decreasing (df : DataFrame) (w : Weights)
    (c : CafvPref) (r s : ScoredRow) (a b : ℚ)
    (hr : r ∈ scoreCandidates df w c) (hs : s ∈ scoreCandidates df w c)
    (hra : r.veh.baseMSRP = some a) (hsb : s.veh.baseMSRP = some b)
    (hab : a < b) (hcol : df.hasMSRP = true)
    (h2 : twoDistinct (knownVals (msrpCol df)) = true) :
    ∃ pa pb, r.price_score = some pa ∧ s.price_score = some pb ∧ pb < pa := by
  rcases mem_scoreCandidates.mp hr with ⟨u, hu, rfl⟩
  rcases mem_scoreCandidates.mp hs with ⟨v, hv, rfl⟩
  rw [scoreRow_veh] at hra hsb
  rcases hmn : (knownVals (msrpCol df)).min? with _ | mn <;>
    rcases hmx : (knownVals (msrpCol df)).max? with _ | mx <;>
      simp only [twoDistinct, hmn, hmx, decide_eq_true_eq] at h2 <;>
        try exact absurd h2 (by decide)
  have hne : mn ≠ mx := ne_of_lt h2
  have hd : (0 : ℚ) < mx - mn := sub_pos.mpr h2
  refine ⟨1 - (a - mn) / (mx - mn), 1 - (b - mn) / (mx - mn), ?_, ?_, ?_⟩
  · rw [scoreRow_price_score, hcol, hra, normCell]
    simp [hmn, hmx, hne]
  · rw [scoreRow_price_score, hcol, hsb, normCell]
    simp [hmn, hmx, hne]
  · exact sub_lt_sub_left
      ((div_lt_div_iff_of_pos_right hd).mpr (sub_lt_sub_right hab mn)) 1

/-- C6 witness: two known prices 30000 < 45000; the cheaper Nissan scores
strictly above the Tesla. -/
theorem c6_price_score_strictly_decreasing_witness :
    ∃ pa pb,
      (scoreRow dfTwoPrices (useCaseWeights UseCase.generalPurpose)
        CafvPref.noneGiven vNissan).price_score = some pa ∧
      (scoreRow dfTwoPrices (useCaseWeights UseCase.generalPurpose)
        CafvPref.noneGiven vTesla).price_score = some pb ∧ pb < pa :=
  c6_price_score_strictly_decreasing dfTwoPrices
    (useCaseWeights UseCase.generalPurpose) CafvPref.noneGiven _ _ 30000 45000
    (List.mem_map_of_mem _ (by simp [dfTwoPrices]))
    (List.mem_map_of_mem _ (by simp [dfTwoPrices]))
    rfl rfl (by norm_num) rfl (by with_unfolding_all decide)

/-- C10. The 0.5 fallback is column-wide, not per record: when a field's
column has at least two distinct known values, a candidate whose own cell
is NaN gets a NaN score for that dimension and hence a NaN composite, and
the ranking places every NaN-composite row after every row with a defined
composite (pandas `na_position='last'`). -/
theorem c10_missing_value_nan_and_ranked_last (df : DataFrame) (w : Weights)
    (c : CafvPref) (f : ScoreField) (r : ScoredRow)
    (hpres : fieldPresent df f = true)
    (h2 : twoDistinct (knownVals (fieldCol df f)) = true)
    (hr : r ∈ scoreCandidates df w c)
    (hmiss : fieldVal r.veh f = none) :
    (fieldScore r f = none ∧ r.composite_score = none) ∧
    (∀ (i j : ℕ) (hi : i < (rankCandidates df w c).length)
        (hj : j < (rankCandidates df w c).length),
      ((rankCandidates df w c).get ⟨i, hi⟩).composite_score = none →
      (((rankCandidates df w c).get ⟨j, hj⟩).composite_score).isSome = true →
      j < i) := by
  constructor
  · rcases mem_scoreCandidates.mp hr with ⟨v, hv, rfl⟩
    rw [scoreRow_veh] at hmiss
    cases f with
    | range =>
      simp only [fieldPresent] at hpres
      simp only [fieldCol] at h2
      simp only [fieldVal] at hmiss
      have hn : normCell df.hasRange (knownVals (rangeCol df))
          v.electricRange = none := by
        rw [hpres, hmiss]
        exact normCell_none_of_twoDistinct _ h2
      constructor
      · simp only [fieldScore]
        rw [scoreRow_range_score, hn]
      · rw [scoreRow_composite, hn]
        simp [optScale_none, optAdd_none_left, optAdd_none_right]
    | msrp =>
      simp only [fieldPresent] at hpres
      simp only [fieldCol] at h2
      simp only [fieldVal] at hmiss
      have hn : normCell df.hasMSRP (knownVals (msrpCol df))
          v.baseMSRP = none := by
        rw [hpres, hmiss]
        exact normCell_none_of_twoDistinct _ h2
      constructor
      · simp only [fieldScore]
        rw [scoreRow_price_score, hn]
        rfl
      · rw [scoreRow_composite, hn]
        simp [optScale_none, optAdd_none_left, optAdd_none_right]
    | year =>
      simp only [fieldPresent] at hpres
      simp only [fieldCol] at h2
      simp only [fieldVal] at hmiss
      have hn : normCell df.hasYear (knownVals (yearCol df))
          v.modelYear = none := by
        rw [hpres, hmiss]
        exact normCell_none_of_twoDistinct _ h2
      constructor
      · simp only [fieldScore]
        rw [scoreRow_newness_score, hn]
      · rw [scoreRow_composite, hn]
        simp [optScale_none, optAdd_none_left, optAdd_none_right]
  · exact sortRanked_somes_first (scoreCandidates df w c)

/-- C10 witness: in a frame with known prices 30000 and 45000 plus one
NaN-price row, the NaN-price row's price and composite scores are NaN and
NaN-composite rows rank after all defined ones. -/
theorem c10_missing_value_nan_and_ranked_last_witness :
    (fieldScore (scoreRow dfNaNPrice (useCaseWeights UseCase.generalPurpose)
        CafvPref.noneGiven vNoMSRP) ScoreField.msrp = none ∧
      (scoreRow dfNaNPrice (useCaseWeights UseCase.generalPurpose)
        CafvPref.noneGiven vNoMSRP).composite_score = none) ∧
    (∀ (i j : ℕ)
        (hi : i < (rankCandidates dfNaNPrice
          (useCaseWeights UseCase.generalPurpose) CafvPref.noneGiven).length)
        (hj : j < (rankCandidates dfNaNPrice
          (useCaseWeights UseCase.generalPurpose) CafvPref.noneGiven).length),
      ((rankCandidates dfNaNPrice (useCaseWeights UseCase.generalPurpose)
          CafvPref.noneGiven).get ⟨i, hi⟩).composite_score = none →
      (((rankCandidates dfNaNPrice (useCaseWeights UseCase.generalPurpose)
          CafvPref.noneGiven).get ⟨j, hj⟩).composite_score).isSome = true →
      j < i) :=
  c10_missing_value_nan_and_ranked_last dfNaNPrice
    (useCaseWeights UseCase.generalPurpose) CafvPref.noneGiven ScoreField.msrp
    _ rfl (by with_unfolding_all decide)
    (List.mem_map_of_mem _ (by simp [dfNaNPrice])) rfl

/-- C8. On every successful run the diverse-alternatives output keeps the
fixed slot order (a sublist of affordability, range, value — hence at most
3 slots), no slot's vehicle carries the top match's brand, no two slots
share a brand, and when the very first pool (brands other than the top
match's) is empty every step is skipped and the output is empty rather than
an error. -/
theorem c8_diverse_alternatives_brand_invariants (df : DataFrame)
    (ranked : List ScoredRow) (top : ScoredRow)
    (alts : List (AltLabel × ScoredRow))
    (h : get_diverse_alternatives df ranked top = Except.ok alts) :
    (alts.map Prod.fst).Sublist
        [AltLabel.mostAffordable, AltLabel.longestRange, AltLabel.bestValue] ∧
    (∀ p ∈ alts, p.2.veh.make ≠ top.veh.make) ∧
    List.Pairwise (fun p q => p.2.veh.make ≠ q.2.veh.make) alts ∧
    (ranked.filter (notInUsed [top.veh.make]) = [] → alts = []) := by
  by_cases hM : df.hasMake = false
  · rw [get_diverse_alternatives, if_pos hM] at h
    simp at h
  · rw [get_diverse_alternatives, if_neg hM] at h
    rcases except_bind_ok h with ⟨a1, h1, h⟩
    rcases except_bind_ok h with ⟨a2, h2, h⟩
    rcases except_bind_ok h with ⟨a3, h3, h⟩
    simp only [pure, Except.pure, Except.ok.injEq] at h
    subst h
    cases a1 with
    | none =>
      cases a2 with
      | none =>
        cases a3 with
        | none =>
          refine ⟨by simp, by simp, by simp, fun _ => by simp⟩
        | some b3 =>
          obtain ⟨hb3mem, hb3used⟩ :=
            altStep_ok_some (fun l x hx => pick1_mem hx) h3
          simp only [List.mem_singleton] at hb3used
          refine ⟨?_, ?_, ?_, ?_⟩
          · by_cases hRM : (df.hasRange && df.hasMSRP) = true <;>
              simp [hRM]
          · by_cases hRM : (df.hasRange && df.hasMSRP) = true <;>
              simp [hRM, hb3used]
          · by_cases hRM : (df.hasRange && df.hasMSRP) = true <;> simp [hRM]
          · intro hemp
            have hx : altStep true (nlargest1First (fun r => r.value_score))
                ranked [top.veh.make] = Except.ok (some b3) := h3
            rw [altStep_empty _ _ _ _ hemp] at hx
            simp at hx
      | some b2 =>
        obtain ⟨hb2mem, hb2used⟩ :=
          altStep_ok_some (fun l x hx => pick1_mem hx) h2
        simp only [List.mem_singleton] at hb2used
        cases a3 with
        | none =>
          refine ⟨by simp, by simp [hb2used], by simp, ?_⟩
          intro hemp
          have hx : altStep df.hasRange
              (nsmallest1Last (fun r => r.veh.electricRange))
              ranked [top.veh.make] = Except.ok (some b2) := h2
          rw [altStep_empty _ _ _ _ hemp] at hx
          simp at hx
        | some b3 =>
          obtain ⟨hb3mem, hb3used⟩ :=
            altStep_ok_some (fun l x hx => pick1_mem hx) h3
          simp only [List.mem_append, List.mem_singleton, not_or] at hb3used
          obtain ⟨hb3top, hb3b2⟩ := hb3used
          have hb2b3 : b2.veh.make ≠ b3.veh.make := Ne.symm hb3b2
          refine ⟨?_, ?_, ?_, ?_⟩
          · by_cases hRM : (df.hasRange && df.hasMSRP) = true <;>
              simp [hRM]
          · by_cases hRM : (df.hasRange && df.hasMSRP) = true <;>
              simp [hRM, hb2used, hb3top]
          · by_cases hRM : (df.hasRange && df.hasMSRP) = true <;>
              simp [hRM, hb2b3]
          · intro hemp
            have hx : altStep df.hasRange
                (nsmallest1Last (fun r => r.veh.electricRange))
                ranked [top.veh.make] = Except.ok (some b2) := h2
            rw [altStep_empty _ _ _ _ hemp] at hx
            simp at hx
    | some b1 =>
      obtain ⟨hb1mem, hb1used⟩ :=
        altStep_ok_some (fun l x hx => pick1_mem hx) h1
      simp only [List.mem_singleton] at hb1used
      cases a2 with
      | none =>
        cases a3 with
        | none =>
          refine ⟨by simp, by simp [hb1used], by simp, ?_⟩
          intro hemp
          rw [altStep_empty _ _ _ _ hemp] at h1
          simp at h1
        | some b3 =>
          obtain ⟨hb3mem, hb3used⟩ :=
            altStep_ok_some (fun l x hx => pick1_mem hx) h3
          simp only [List.mem_append, List.mem_singleton, not_or] at hb3used
          obtain ⟨hb3top, hb3b1⟩ := hb3used
          have hb1b3 : b1.veh.make ≠ b3.veh.make := Ne.symm hb3b1
          refine ⟨?_, ?_, ?_, ?_⟩
          · by_cases hRM : (df.hasRange && df.hasMSRP) = true <;>
              simp [hRM]
          · by_cases hRM : (df.hasRange && df.hasMSRP) = true <;>
              simp [hRM, hb1used, hb3top]
          · by_cases hRM : (df.hasRange && df.hasMSRP) = true <;>
              simp [hRM, hb1b3]
          · intro hemp
            rw [altStep_empty _ _ _ _ hemp] at h1
            simp at h1
      | some b2 =>
        obtain ⟨hb2mem, hb2used⟩ :=
          altStep_ok_some (fun l x hx => pick1_mem hx) h2
        simp only [List.mem_append, List.mem_singleton, not_or] at hb2used
        obtain ⟨hb2top, hb2b1⟩ := hb2used
        have hb1b2 : b1.veh.make ≠ b2.veh.make := Ne.symm hb2b1
        cases a3 with
        | none =>
          refine ⟨by simp, by simp [hb1used, hb2top],
            by simp [hb1b2], ?_⟩
          intro hemp
          rw [altStep_empty _ _ _ _ hemp] at h1
          simp at h1
        | some b3 =>
          obtain ⟨hb3mem, hb3used⟩ :=
            altStep_ok_some (fun l x hx => pick1_mem hx) h3
          simp only [List.mem_append, List.mem_singleton, not_or] at hb3used
          obtain ⟨⟨hb3top, hb3b1⟩, hb3b2⟩ := hb3used
          have hb1b3 : b1.veh.make ≠ b3.veh.make := Ne.symm hb3b1
          have hb2b3 : b2.veh.make ≠ b3.veh.make := Ne.symm hb3b2
          refine ⟨?_, ?_, ?_, ?_⟩
          · by_cases hRM : (df.hasRange && df.hasMSRP) = true <;>
              simp [hRM]
          · by_cases hRM : (df.hasRange && df.hasMSRP) = true <;>
              simp [hRM, hb1used, hb2top, hb3top]
          · by_cases hRM : (df.hasRange && df.hasMSRP) = true <;>
              simp [hRM, hb1b2, hb1b3, hb2b3]
          · intro hemp
            rw [altStep_empty _ _ _ _ hemp] at h1
            simp at h1


/-- C8 witness: a concrete run with a Tesla top match over a Nissan and a
Chevrolet row fills the affordability and range slots and leaves the value
slot empty, satisfying every invariant. -/
theorem c8_diverse_alternatives_brand_invariants_witness :
    (([(AltLabel.mostAffordable, plainRow vNissan),
        (AltLabel.longestRange, plainRow vChevy)].map Prod.fst).Sublist
      [AltLabel.mostAffordable, AltLabel.longestRange, AltLabel.bestValue]) ∧
    (∀ p ∈ [(AltLabel.mostAffordable, plainRow vNissan),
        (AltLabel.longestRange, plainRow vChevy)],
      p.2.veh.make ≠ (plainRow vTesla).veh.make) ∧
    List.Pairwise (fun p q => p.2.veh.make ≠ q.2.veh.make)
      [(AltLabel.mostAffordable, plainRow vNissan),
        (AltLabel.longestRange, plainRow vChevy)] ∧
    ([plainRow vNissan, plainRow vChevy].filter
        (notInUsed [(plainRow vTesla).veh.make]) = [] →
      [(AltLabel.mostAffordable, plainRow vNissan),
        (AltLabel.longestRange, plainRow vChevy)] = []) :=
  c8_diverse_alternatives_brand_invariants dfAlt
    [plainRow vNissan, plainRow vChevy] (plainRow vTesla)
    [(AltLabel.mostAffordable, plainRow vNissan),
      (AltLabel.longestRange, plainRow vChevy)]
    (by with_unfolding_all rfl)

/-- C2 witness: the amended theorem applied at a concrete input. -/
theorem c2_budget_filter_amended_witness :
    (budgetPass BudgetChoice.luxury vNoMSRP = true ↔
      (budgetRange BudgetChoice.luxury).1 ≤ vNoMSRP.baseMSRP.getD 999999 ∧
        vNoMSRP.baseMSRP.getD 999999 ≤ (budgetRange BudgetChoice.luxury).2) ∧
    (vNoMSRP.baseMSRP = none →
      (budgetPass BudgetChoice.luxury vNoMSRP = true ↔
        BudgetChoice.luxury = BudgetChoice.luxury ∨
          BudgetChoice.luxury = BudgetChoice.noPreference)) :=
  c2_budget_filter_amended BudgetChoice.luxury vNoMSRP

end EVAdvisor
